import Mathlib

/-!
Verification of `model/llm_captioning.py` (class `LLMCaptioning`, a PyTorch
Lightning module wrapping an OPT-family causal language model).

Modelling conventions:
* Python dicts are association lists `List (String × _)`; Python dict keys are
  unique, but no theorem below depends on uniqueness unless stated.
* Tensors are lists (of `Int` token ids or `Bool` masks); `masked_fill` is the
  out-of-place tensor method the source uses, so it is a pure function.
* Fallible Python operations (dict lookup raising KeyError, list indexing
  raising IndexError or TypeError, an `assert`) are `Except String _`.
* Lifecycle hooks whose interesting content is which side effects happen on
  which rank / epoch (`dist.all_gather_object`, file writes, `self.log`) are
  modelled as functions returning the list of effect events they perform, in
  program order.  `world_size` only sizes the preallocated gather buffers in
  the source and does not affect which effects a rank performs, so the event
  functions do not take it.
-/

namespace LLMCaptioning

/-- Parameter table of the module: maps a parameter name to its
`requires_grad` flag.  `self.get_parameter(key)` raises `AttributeError` for a
key that does not resolve to a parameter (for example a buffer); that is
modelled as `none`. -/
def get_parameter (params : List (String × Bool)) (key : String) : Option Bool :=
  (params.find? (fun kv => kv.1 == key)).map (fun kv => kv.2)

/-- A Lightning checkpoint dict: the `state_dict` entry plus all the other
fields (optimizer states, epoch counters, ...), kept abstract as `rest`. -/
structure Checkpoint (V : Type) (O : Type) where
  state_dict : List (String × V)
  rest : O

/-- Embedding of `LLMCaptioning.on_save_checkpoint` (lines 21-31): it first
collects into `to_be_removed` every key of `checkpoint['state_dict']` whose
parameter is not `requires_grad` or whose lookup raises `AttributeError`, then
pops exactly those keys from the state dict. -/
def on_save_checkpoint {V O : Type} (params : List (String × Bool))
    (cp : Checkpoint V O) : Checkpoint V O :=
  let to_be_removed :=
    (cp.state_dict.filter
      (fun kv => !(get_parameter params kv.1 == some true))).map (fun kv => kv.1)
  { cp with
    state_dict := cp.state_dict.filter (fun kv => !(to_be_removed.contains kv.1)) }

/-- Outcome of the `llm_tune` dispatch in `LLMCaptioning.__init__`
(lines 57-74): which of the four tuning-strategy branches runs, or the
`raise NotImplementedError()` of the final `else`. -/
inductive TuneBranch where
  | freeze
  | full
  | lora
  | midLora
  | notImplementedError
deriving DecidableEq

/-- Embedding of the `llm_tune` branch structure of `__init__` (lines 57-74). -/
def init_tune_branch (llm_tune : String) : TuneBranch :=
  if llm_tune = "freeze" then TuneBranch.freeze
  else if llm_tune = "full" then TuneBranch.full
  else if llm_tune = "lora" then TuneBranch.lora
  else if llm_tune = "mid_lora" then TuneBranch.midLora
  else TuneBranch.notImplementedError

/-- Effect of `__init__` on the `requires_grad` flags of
`self.llm_model.named_parameters()` (lines 57-62): `freeze` sets every flag to
`False`, `full` sets every flag to `True`.  The `lora` / `mid_lora` branches
delegate to `opendelta`'s `LoraModel.freeze_module`, an external library call,
so they leave the flags untouched in this embedding. -/
def init_llm_params (llm_tune : String)
    (named_parameters : List (String × Bool)) : List (String × Bool) :=
  if llm_tune = "freeze" then named_parameters.map (fun kv => (kv.1, false))
  else if llm_tune = "full" then named_parameters.map (fun kv => (kv.1, true))
  else named_parameters

/-- Embedding of `save_predictions` (lines 96-110).  The `assert` on line 97
fails before the file is opened when the lengths differ.  Each written line is
`json.dumps` of a dict, modelled as the key/value association list of that
dict; the function returns the list of lines written.  Python `zip` truncates
to the shorter list, as `List.zip` does. -/
def save_predictions (predictions targets : List String)
    (q_types : Option (List String)) :
    Except String (List (List (String × String))) :=
  if predictions.length = targets.length then
    Except.ok (match q_types with
      | some qs =>
        (predictions.zip (targets.zip qs)).map
          (fun ptq => [("prediction", ptq.1), ("target", ptq.2.1),
                       ("q_type", ptq.2.2)])
      | none =>
        (predictions.zip targets).map
          (fun pt => [("prediction", pt.1), ("target", pt.2)]))
  else Except.error "AssertionError"

/-- Python `d[k]` on a dict: `KeyError` when the key is absent. -/
def pyDictGet {α : Type} (d : List (String × α)) (k : String) :
    Except String α :=
  match d.find? (fun kv => kv.1 == k) with
  | some kv => Except.ok kv.2
  | none => Except.error "KeyError"

/-- Python `l[i]` on a list with an integer index: `IndexError` when out of
range. -/
def pyListGet {α : Type} (l : List α) (i : Nat) : Except String α :=
  match l.get? i with
  | some v => Except.ok v
  | none => Except.error "IndexError"

/-- Embedding of `gather_dict_results` (lines 198-210).  The argument is
`list_of_dict_list`, the per-rank lists produced by `dist.all_gather_object`;
line 201 flattens them.  Each input dict maps a key to a list of values.
Line 208 is `d = \x7bgathered_dict[k][i] for k in keys\x7d` — a Python SET
comprehension, not a dict comprehension: each produced record is a set of the
values at index `i`, with no key association.  A Python set is modelled as the
list of values in key order with duplicates removed (`List.dedup`); set
iteration order is irrelevant to every theorem below. -/
def gather_dict_results
    (list_of_dict_list : List (List (List (String × List String)))) :
    Except String (List (List String)) := do
  let dict_list := list_of_dict_list.flatten
  let d0 ← pyListGet dict_list 0
  let keys := d0.map (fun kv => kv.1)
  let gathered_dict ← keys.mapM (fun key => do
    let parts ← dict_list.mapM (fun d => pyDictGet d key)
    pure (key, parts.flatten))
  let preds ← pyDictGet gathered_dict "predictions"
  (List.range preds.length).mapM (fun i => do
    let vals ← keys.mapM (fun k => do
      let l ← pyDictGet gathered_dict k
      pyListGet l i)
    pure vals.dedup)

/-- Embedding of `save_results` (lines 212-224).  Its argument `dict_list` is
a Python list of record dicts (that is what `on_validation_epoch_end` passes
on line 236).  Line 218 indexes it with the integer `0`, which raises
`IndexError` on an empty list; for a non-empty list, line 220 evaluates
`len(dict_list['predictions'])`, indexing a *list* with a *string*, which
raises `TypeError` before any line is written.  The returned value would be
the list of written lines; no path reaches a write. -/
def save_results (dict_list : List (List (String × String)))
    (logPref : String) :
    Except String (List (List (String × String))) :=
  match dict_list with
  | [] => Except.error "IndexError: list index out of range"
  | _ :: _ =>
    Except.error "TypeError: list indices must be integers or slices, not str"

/-- Side effects performed by the validation-time hooks: a
`dist.all_gather_object` call, a file write, a `self.log` call, a
`self.generate` call, an append to `self.saved_dict_list`. -/
inductive Event where
  | allGatherObject (what : String)
  | writeFile (name : String)
  | logMetric (name : String)
  | generateText
  | appendSavedDict
deriving DecidableEq

def Event.isWrite : Event → Bool
  | Event.writeFile _ => true
  | _ => false

def Event.isLog : Event → Bool
  | Event.logMetric _ => true
  | _ => false

def Event.isGather : Event → Bool
  | Event.allGatherObject _ => true
  | _ => false

/-- File name chosen by `save_predictions` / `save_results` (lines 98-101 and
214-217): Python string truthiness selects the prefixed name exactly for a
non-empty `log_prefix` (modelled here as `logPref`). -/
def predictions_file_name (logPref : String) : String :=
  if logPref ≠ "" then logPref ++ "_predictions.txt" else "predictions.txt"

/-- The single file write performed by `save_predictions` (line 102). -/
def save_predictions_events (logPref : String) : List Event :=
  [Event.writeFile (predictions_file_name logPref)]

/-- The seven `self.log` calls of the captioning evaluation (lines 159-165,
repeated verbatim on lines 249-255). -/
def caption_metric_log_events (logPref : String) : List Event :=
  [Event.logMetric (logPref ++ "/acc"), Event.logMetric (logPref ++ "/bleu2"),
   Event.logMetric (logPref ++ "/bleu4"),
   Event.logMetric (logPref ++ "/rouge_1"),
   Event.logMetric (logPref ++ "/rouge_2"),
   Event.logMetric (logPref ++ "/rouge_l"),
   Event.logMetric (logPref ++ "/meteor_score")]

/-- Effect trace of `reduce_and_evaluate_qa` (lines 133-144): three
`all_gather_object` calls on every rank, then `save_predictions` only when
`self.global_rank == 0`.  No `self.log` call appears anywhere in its body. -/
def reduce_and_evaluate_qa_events (global_rank : Nat) (logPref : String) :
    List Event :=
  [Event.allGatherObject "predictions", Event.allGatherObject "targets",
   Event.allGatherObject "q_types"] ++
  if global_rank = 0 then save_predictions_events logPref else []

/-- Effect trace of `reduce_and_evaluate_captioning` (lines 146-165): two
`all_gather_object` calls on every rank, then, only when
`self.global_rank == 0`, `save_predictions` followed by the seven metric
logs. -/
def reduce_and_evaluate_captioning_events (global_rank : Nat)
    (logPref : String) : List Event :=
  [Event.allGatherObject "predictions", Event.allGatherObject "targets"] ++
  if global_rank = 0 then
    save_predictions_events logPref ++ caption_metric_log_events logPref
  else []

/-- Embedding of the `save_results` call as it actually happens on line 236:
`gather_dict_results` produces a list of Python sets (see
`gather_dict_results`), and `save_results` line 218 evaluates
`dict_list[0].keys()` — on an empty list the `[0]` raises `IndexError`, and
on a non-empty list a set has no `.keys()` method, raising `AttributeError`.
Either way the function raises before the file is opened on line 219: no line
is ever written. -/
def save_results_on_set_records (dict_list : List (List String)) :
    Except String (List (List (String × String))) :=
  match dict_list with
  | [] => Except.error "IndexError: list index out of range"
  | _ :: _ => Except.error "AttributeError: set object has no attribute keys"

/-- Effect trace of `on_validation_epoch_end` (lines 226-255).  The
`enable_flash` attention swap on lines 227-228 is neither a gather, a write
nor a log, so it produces no event.  When `(current_epoch + 1)` is not a
multiple of `caption_eval_epoch` the hook returns at line 230 with no effect.
Otherwise `gather_dict_results` runs on every rank (its
`dist.all_gather_object`, line 200; the trace assumes the gather itself
succeeds) — and nothing further is ever performed on any rank: on a nonzero
rank the `global_rank == 0` guard on line 235 skips the whole block, and on
rank 0 the `save_results` call on line 236 raises before opening the file
(see `save_results_on_set_records`), aborting the hook before lines 237-255.
So no rank writes a file or logs a metric, and the `q_types` test on line 241
(`hasQTypes`) is unreachable: neither argument affects the events. -/
def on_validation_epoch_end_events (current_epoch caption_eval_epoch
    global_rank : Nat) (hasQTypes : Bool) : List Event :=
  if (current_epoch + 1) % caption_eval_epoch ≠ 0 then []
  else [Event.allGatherObject "saved_dict_list"]

/-- The exception `on_validation_epoch_end` terminates with, given the
gathered set records (`none` means the hook returns normally): on an
ineligible epoch it returns at line 230; on a nonzero rank it skips the
rank-0 block and returns; on rank 0 it propagates whatever `save_results`
raises on line 236 — which is an error for every input. -/
def on_validation_epoch_end_outcome (current_epoch caption_eval_epoch
    global_rank : Nat) (result_list : List (List String)) : Option String :=
  if (current_epoch + 1) % caption_eval_epoch ≠ 0 then none
  else if global_rank = 0 then
    match save_results_on_set_records result_list with
    | Except.error e => some e
    | Except.ok _ => none
  else none

/-- Effect trace of `validation_step` (lines 176-196).  An even
`dataloader_idx` computes `lm_loss` and logs the validation loss on every
epoch; an odd `dataloader_idx` returns at line 184 when
`(current_epoch + 1) % caption_eval_epoch != 0`, and otherwise calls
`self.generate` and appends the result dict to `self.saved_dict_list`. -/
def validation_step_events (current_epoch caption_eval_epoch
    dataloader_idx : Nat) : List Event :=
  if dataloader_idx % 2 = 0 then
    [Event.logMetric ("dataloader" ++ toString dataloader_idx ++ "/val loss")]
  else
    if (current_epoch + 1) % caption_eval_epoch ≠ 0 then []
    else [Event.generateText, Event.appendSavedDict]

/-- The out-of-place tensor method `Tensor.masked_fill(mask, value)` used on
lines 341-342: positions where the mask is true are replaced by `value`; the
receiver tensor is left unchanged and a new tensor is returned. -/
def masked_fill (xs : List Int) (mask : List Bool) (value : Int) : List Int :=
  List.zipWith (fun x m => if m then value else x) xs mask

/-- A tokenized batch as used by `lm_loss`: token ids, attention mask and
token type ids, all of the same shape (flattened to one dimension; `lm_loss`
is elementwise in all mask operations). -/
structure Batch where
  input_ids : List Int
  attention_mask : List Int
  token_type_ids : List Int

/-- The `targets` (labels) tensor built by `lm_loss` (lines 341-342):
`input_ids` with the pad positions masked to `-100`, then the positions where
`token_type_ids == 0` masked to `-100`. -/
def lm_loss_labels (pad_token_id : Int) (batch : Batch) : List Int :=
  let targets := masked_fill batch.input_ids
    (batch.input_ids.map (fun x => x == pad_token_id)) (-100)
  masked_fill targets (batch.token_type_ids.map (fun t => t == 0)) (-100)

/-- The `(input_ids, labels)` pair `lm_loss` passes to `self.llm_model` on
lines 343-348: the batch's own `input_ids` tensor, untouched (both
`masked_fill` calls are out of place), and the freshly built labels. -/
def lm_loss_model_inputs (pad_token_id : Int) (batch : Batch) :
    List Int × List Int :=
  (batch.input_ids, lm_loss_labels pad_token_id batch)

/-! ## Theorems -/

/-- Helper: `List.contains` is `false` exactly on non-members (for a lawful
`BEq` such as the one on `String`). -/
theorem contains_eq_false_iff {α : Type} [BEq α] [LawfulBEq α]
    (l : List α) (a : α) : l.contains a = false ↔ a ∉ l := by
  simp

/-- Membership in the pruned state dict: an entry survives
`on_save_checkpoint` exactly when it was present before and its key names a
parameter with `requires_grad = true`. -/
theorem mem_on_save_checkpoint_state_dict {V O : Type}
    (params : List (String × Bool)) (cp : Checkpoint V O) (kv : String × V) :
    kv ∈ (on_save_checkpoint params cp).state_dict ↔
      kv ∈ cp.state_dict ∧ get_parameter params kv.1 = some true := by
  unfold on_save_checkpoint
  simp only [List.mem_filter, Bool.not_eq_true', contains_eq_false_iff,
    List.mem_map, List.mem_filter, not_exists, not_and]
  constructor
  · rintro ⟨hmem, hpred⟩
    refine ⟨hmem, ?_⟩
    by_contra hne
    exact hpred kv ⟨hmem, by simpa using hne⟩ rfl
  · rintro ⟨hmem, heq⟩
    refine ⟨hmem, ?_⟩
    rintro kw ⟨_, hkw⟩ hk
    rw [hk] at hkw
    simp only [Bool.not_eq_true', beq_eq_false_iff_ne, ne_eq] at hkw
    exact hkw heq

/-- C1: after `on_save_checkpoint` runs, every key remaining in the
checkpoint's state dict names a parameter whose `requires_grad` is `true`,
and every key naming a non-trainable parameter, or not resolving to a
parameter at all (`get_parameter` returns `none`), no longer appears: the
checkpoint keeps only trainable parameters. -/
theorem c1_on_save_checkpoint_keeps_only_trainable {V O : Type}
    (params : List (String × Bool)) (cp : Checkpoint V O) :
    (∀ kv, kv ∈ (on_save_checkpoint params cp).state_dict →
        get_parameter params kv.1 = some true) ∧
    (∀ key, get_parameter params key ≠ some true →
        ∀ v, (key, v) ∉ (on_save_checkpoint params cp).state_dict) := by
  constructor
  · intro kv hkv
    exact ((mem_on_save_checkpoint_state_dict params cp kv).mp hkv).2
  · intro key hne v hmem
    exact hne ((mem_on_save_checkpoint_state_dict params cp (key, v)).mp hmem).2

/-- Witness for C1 at a concrete checkpoint: the non-trainable parameter
`b` is removed from the saved state dict. -/
theorem c1_witness :
    ("b", (2 : Nat)) ∉ (on_save_checkpoint [("a", true), ("b", false)]
      (Checkpoint.mk [("a", (1 : Nat)), ("b", 2)] ())).state_dict :=
  (c1_on_save_checkpoint_keeps_only_trainable [("a", true), ("b", false)]
    (Checkpoint.mk [("a", (1 : Nat)), ("b", 2)] ())).2 "b" (by decide) 2

/-- C8: `on_save_checkpoint` only removes entries from the state dict — the
pruned state dict is a sublist of the original, every entry whose key names a
trainable parameter survives with its value unchanged, and every other field
of the checkpoint dict (`rest`) is unchanged. -/
theorem c8_on_save_checkpoint_frame {V O : Type}
    (params : List (String × Bool)) (cp : Checkpoint V O) :
    (on_save_checkpoint params cp).state_dict.Sublist cp.state_dict ∧
    (∀ kv, kv ∈ cp.state_dict → get_parameter params kv.1 = some true →
        kv ∈ (on_save_checkpoint params cp).state_dict) ∧
    (on_save_checkpoint params cp).rest = cp.rest := by
  refine ⟨List.filter_sublist _, ?_, rfl⟩
  intro kv hmem heq
  exact (mem_on_save_checkpoint_state_dict params cp kv).mpr ⟨hmem, heq⟩

/-- Witness for C8 at a concrete checkpoint: the trainable parameter `a`
keeps its exact entry. -/
theorem c8_witness :
    ("a", (1 : Nat)) ∈ (on_save_checkpoint [("a", true), ("b", false)]
      (Checkpoint.mk [("a", (1 : Nat)), ("b", 2)] (7 : Nat))).state_dict :=
  (c8_on_save_checkpoint_frame [("a", true), ("b", false)]
    (Checkpoint.mk [("a", (1 : Nat)), ("b", 2)] (7 : Nat))).2.1
    ("a", 1) (by decide) (by decide)

/-- C3: the `llm_tune` dispatch of `__init__` runs exactly the branch named
by the value — `freeze`, `full`, `lora`, `mid_lora` — and raises
`NotImplementedError` if and only if `llm_tune` is any other value. -/
theorem c3_init_tune_dispatch (llm_tune : String) :
    init_tune_branch "freeze" = TuneBranch.freeze ∧
    init_tune_branch "full" = TuneBranch.full ∧
    init_tune_branch "lora" = TuneBranch.lora ∧
    init_tune_branch "mid_lora" = TuneBranch.midLora ∧
    (init_tune_branch llm_tune = TuneBranch.notImplementedError ↔
      llm_tune ≠ "freeze" ∧ llm_tune ≠ "full" ∧ llm_tune ≠ "lora" ∧
        llm_tune ≠ "mid_lora") := by
  refine ⟨rfl, rfl, rfl, rfl, ?_⟩
  unfold init_tune_branch
  split_ifs with h1 h2 h3 h4
  · simp [h1]
  · simp [h1, h2]
  · simp [h1, h2, h3]
  · simp [h1, h2, h3, h4]
  · simp [h1, h2, h3, h4]

/-- Witness for C3: an unrecognized tuning mode hits the
`NotImplementedError` branch. -/
theorem c3_witness :
    init_tune_branch "adapter" = TuneBranch.notImplementedError :=
  (c3_init_tune_dispatch "adapter").2.2.2.2.mpr (by decide)

/-- C4: after `__init__` with `llm_tune == "freeze"` every named parameter of
the language model has `requires_grad = false`; with `llm_tune == "full"`
every named parameter has `requires_grad = true`. -/
theorem c4_freeze_full_requires_grad (named_parameters : List (String × Bool)) :
    (∀ kv, kv ∈ init_llm_params "freeze" named_parameters → kv.2 = false) ∧
    (∀ kv, kv ∈ init_llm_params "full" named_parameters → kv.2 = true) := by
  constructor
  · intro kv hkv
    unfold init_llm_params at hkv
    rw [if_pos rfl] at hkv
    rcases List.mem_map.mp hkv with ⟨kw, -, hkw⟩
    rw [← hkw]
  · intro kv hkv
    unfold init_llm_params at hkv
    rw [if_neg (by decide), if_pos rfl] at hkv
    rcases List.mem_map.mp hkv with ⟨kw, -, hkw⟩
    rw [← hkw]

/-- Witness for C4 at a concrete parameter list: freezing turns the flag of
`w` off. -/
theorem c4_witness : (("w", false) : String × Bool).2 = false :=
  (c4_freeze_full_requires_grad [("w", true)]).1 ("w", false) (by decide)

/-- C2: evaluating `gather_dict_results` on a concrete gathered input.  The
set comprehension on line 208 (`d = \x7bgathered_dict[k][i] for k in keys\x7d`)
makes each returned record a set of the values at index `i` — here the bare
value collection `["p1", "t1"]` with no key association, where the claim
requires a dict mapping `\x27predictions\x27 ↦ "p1"` and
`\x27targets\x27 ↦ "t1"`.  The second conjunct shows the loss is not even
recoverable: when a prediction equals its target the set collapses to a
single element. -/
theorem c2_gather_dict_results_set_not_dict :
    gather_dict_results [[[("predictions", ["p1"]), ("targets", ["t1"])]]] =
      Except.ok [["p1", "t1"]] ∧
    gather_dict_results [[[("predictions", ["x"]), ("targets", ["x"])]]] =
      Except.ok [["x"]] := by
  constructor <;> rfl

/-- C7: evaluating `save_results` at a non-empty record list, as
`on_validation_epoch_end` passes it: line 220 evaluates
`len(dict_list['predictions'])`, indexing a list with a string, so the call
raises `TypeError` and writes no line at all. -/
theorem c7_save_results_raises_type_error :
    save_results [[("predictions", "p1"), ("targets", "t1")]] "dataset0" =
      Except.error "TypeError: list indices must be integers or slices, not str"
    := rfl

/-- C5 counterexample: the claim states that in `reduce_and_evaluate_qa`
results are written and evaluation metrics are logged if and only if
`global_rank == 0`; at `global_rank = 0` the function writes the predictions
file but performs no `self.log` call at all (its body, lines 133-144, contains
none), so the claimed equivalence is false there. -/
theorem c5_counterexample_qa_rank0_no_log :
    ¬ (((reduce_and_evaluate_qa_events 0 "dataset0").any Event.isWrite = true ∧
        (reduce_and_evaluate_qa_events 0 "dataset0").any Event.isLog = true) ↔
      (0 : Nat) = 0) := by decide

/-- C5 (amended): in `reduce_and_evaluate_qa` and
`reduce_and_evaluate_captioning` the predictions file is written iff
`global_rank = 0`, metrics are logged iff `global_rank = 0` in
`reduce_and_evaluate_captioning` while `reduce_and_evaluate_qa` logs no
metric on any rank, and nonzero ranks only gather.  In
`on_validation_epoch_end` on an eligible epoch every rank performs the
gather, but no rank ever writes the predictions file or logs a metric: on
rank 0 the `save_results` call on line 236 raises before opening the file
and aborts the hook — the hook terminates with an exception exactly on
rank 0 — and every other rank skips the rank-0 block. -/
theorem c5_rank0_gating_amended (global_rank current_epoch
    caption_eval_epoch : Nat) (logPref : String) (hasQTypes : Bool)
    (result_list : List (List String))
    (heligible : (current_epoch + 1) % caption_eval_epoch = 0) :
    ((reduce_and_evaluate_qa_events global_rank logPref).any Event.isWrite =
      decide (global_rank = 0)) ∧
    ((reduce_and_evaluate_qa_events global_rank logPref).any Event.isLog =
      false) ∧
    ((reduce_and_evaluate_captioning_events global_rank logPref).any
      Event.isWrite = decide (global_rank = 0)) ∧
    ((reduce_and_evaluate_captioning_events global_rank logPref).any
      Event.isLog = decide (global_rank = 0)) ∧
    (on_validation_epoch_end_events current_epoch caption_eval_epoch
      global_rank hasQTypes = [Event.allGatherObject "saved_dict_list"]) ∧
    ((on_validation_epoch_end_events current_epoch caption_eval_epoch
      global_rank hasQTypes).any Event.isWrite = false) ∧
    ((on_validation_epoch_end_events current_epoch caption_eval_epoch
      global_rank hasQTypes).any Event.isLog = false) ∧
    ((on_validation_epoch_end_outcome current_epoch caption_eval_epoch
      global_rank result_list).isSome = decide (global_rank = 0)) ∧
    (global_rank ≠ 0 →
      (reduce_and_evaluate_qa_events global_rank logPref).all Event.isGather =
        true ∧
      (reduce_and_evaluate_captioning_events global_rank logPref).all
        Event.isGather = true) := by
  by_cases hr : global_rank = 0 <;> cases result_list <;>
    simp [reduce_and_evaluate_qa_events, reduce_and_evaluate_captioning_events,
      on_validation_epoch_end_events, on_validation_epoch_end_outcome,
      save_results_on_set_records, save_predictions_events,
      caption_metric_log_events, Event.isWrite, Event.isLog, Event.isGather,
      heligible, hr]

/-- Witness for C5 (amended) at rank 0 on an eligible epoch: the epoch-end
hook performs the gather and nothing else. -/
theorem c5_witness :
    on_validation_epoch_end_events 0 1 0 false =
      [Event.allGatherObject "saved_dict_list"] :=
  (c5_rank0_gating_amended 0 0 1 "x" false [["p1", "t1"]]
    (by decide)).2.2.2.2.1

/-- C6: for equal-length `predictions` and `targets` (and equal-length
`q_types` when given) `save_predictions` produces exactly one JSON line per
record — the line at index `i` holds that index's prediction and target (and
q_type) under the keys `prediction`, `target` (and `q_type`) — and when the
lengths differ it fails on the assertion, writing nothing. -/
theorem c6_save_predictions_lines (predictions targets q_types : List String)
    (h : predictions.length = targets.length)
    (hq : q_types.length = predictions.length) :
    (∃ lines, save_predictions predictions targets (some q_types) =
        Except.ok lines ∧
      lines.length = predictions.length ∧
      ∀ i p t q, predictions.get? i = some p → targets.get? i = some t →
        q_types.get? i = some q →
        lines.get? i =
          some [("prediction", p), ("target", t), ("q_type", q)]) ∧
    (∃ lines, save_predictions predictions targets none = Except.ok lines ∧
      lines.length = predictions.length ∧
      ∀ i p t, predictions.get? i = some p → targets.get? i = some t →
        lines.get? i = some [("prediction", p), ("target", t)]) ∧
    (∀ ps ts : List String, ∀ qso : Option (List String),
      ps.length ≠ ts.length →
      save_predictions ps ts qso = Except.error "AssertionError") := by
  refine ⟨⟨(predictions.zip (targets.zip q_types)).map
      (fun ptq => [("prediction", ptq.1), ("target", ptq.2.1),
                   ("q_type", ptq.2.2)]), ?_, ?_, ?_⟩,
    ⟨(predictions.zip targets).map
      (fun pt => [("prediction", pt.1), ("target", pt.2)]), ?_, ?_, ?_⟩, ?_⟩
  · unfold save_predictions
    rw [if_pos h]
  · simp only [List.length_map, List.length_zip]
    omega
  · intro i p t q hp ht hqq
    have hz : (predictions.zip (targets.zip q_types)).get? i =
        some (p, (t, q)) :=
      (List.get?_zip_eq_some _ _ _ _).mpr
        ⟨hp, (List.get?_zip_eq_some _ _ _ _).mpr ⟨ht, hqq⟩⟩
    rw [List.get?_map, hz]
    rfl
  · unfold save_predictions
    rw [if_pos h]
  · simp only [List.length_map, List.length_zip]
    omega
  · intro i p t hp ht
    have hz : (predictions.zip targets).get? i = some (p, t) :=
      (List.get?_zip_eq_some _ _ _ _).mpr ⟨hp, ht⟩
    rw [List.get?_map, hz]
    rfl
  · intro ps ts qso hne
    unfold save_predictions
    rw [if_neg hne]

/-- Witness for C6: mismatched lengths fail the assertion. -/
theorem c6_witness :
    save_predictions ["a"] [] none = Except.error "AssertionError" :=
  (c6_save_predictions_lines ["a"] ["b"] ["q"] rfl rfl).2.2 ["a"] [] none
    (by decide)

/-- C9: on an epoch where `(current_epoch + 1)` is not a multiple of
`caption_eval_epoch`, `validation_step` on an odd `dataloader_idx` performs
nothing (no `generate`, no append to `saved_dict_list`) and
`on_validation_epoch_end` performs nothing (no gather, no write, no log);
even-indexed dataloaders log the validation loss on every epoch. -/
theorem c9_caption_eval_epoch_gating (current_epoch caption_eval_epoch
    dataloader_idx global_rank : Nat) (hasQTypes : Bool)
    (hodd : dataloader_idx % 2 = 1)
    (hskip : (current_epoch + 1) % caption_eval_epoch ≠ 0) :
    validation_step_events current_epoch caption_eval_epoch dataloader_idx =
      [] ∧
    on_validation_epoch_end_events current_epoch caption_eval_epoch
      global_rank hasQTypes = [] ∧
    (∀ ce idx2, idx2 % 2 = 0 →
      validation_step_events ce caption_eval_epoch idx2 =
        [Event.logMetric ("dataloader" ++ toString idx2 ++ "/val loss")]) := by
  refine ⟨?_, ?_, ?_⟩
  · unfold validation_step_events
    rw [if_neg (by omega), if_pos hskip]
  · unfold on_validation_epoch_end_events
    rw [if_pos hskip]
  · intro ce idx2 hev
    unfold validation_step_events
    rw [if_pos hev]

/-- Witness for C9: with `caption_eval_epoch = 2` at epoch 0, an odd
dataloader performs nothing. -/
theorem c9_witness : validation_step_events 0 2 1 = [] :=
  (c9_caption_eval_epoch_gating 0 2 1 0 false (by decide) (by decide)).1

/-- C10: the labels tensor built by `lm_loss` equals `input_ids` except that
pad positions and prompt positions (`token_type_ids == 0`) are `-100`, and
the `input_ids` tensor handed to the language model is the batch's own,
unmodified. -/
theorem c10_lm_loss_labels_masking (pad_token_id : Int) (batch : Batch)
    (i : Nat) (x t : Int)
    (hx : batch.input_ids.get? i = some x)
    (ht : batch.token_type_ids.get? i = some t) :
    (lm_loss_labels pad_token_id batch).get? i =
      some (if x = pad_token_id ∨ t = 0 then -100 else x) ∧
    (lm_loss_model_inputs pad_token_id batch).1 = batch.input_ids := by
  refine ⟨?_, rfl⟩
  have hm1 : (batch.input_ids.map (fun y => y == pad_token_id)).get? i =
      some (x == pad_token_id) := by rw [List.get?_map, hx]; rfl
  have hm2 : (batch.token_type_ids.map (fun y => y == 0)).get? i =
      some (t == 0) := by rw [List.get?_map, ht]; rfl
  have hinner : (List.zipWith (fun y m => if m then (-100 : Int) else y)
      batch.input_ids
      (batch.input_ids.map (fun y => y == pad_token_id))).get? i =
      some (if x == pad_token_id then (-100 : Int) else x) :=
    (List.get?_zipWith_eq_some _ _ _ _ _).mpr ⟨x, x == pad_token_id, hx, hm1, rfl⟩
  have houter : (List.zipWith (fun y m => if m then (-100 : Int) else y)
      (List.zipWith (fun y m => if m then (-100 : Int) else y)
        batch.input_ids
        (batch.input_ids.map (fun y => y == pad_token_id)))
      (batch.token_type_ids.map (fun y => y == 0))).get? i =
      some (if t == 0 then (-100 : Int)
        else if x == pad_token_id then (-100 : Int) else x) :=
    (List.get?_zipWith_eq_some _ _ _ _ _).mpr
      ⟨_, _, hinner, hm2, rfl⟩
  simp only [lm_loss_labels, masked_fill]
  rw [houter]
  by_cases hxp : x = pad_token_id <;> by_cases ht0 : t = 0 <;>
    simp [hxp, ht0]

/-- Witness for C10 at a concrete batch: position 0 is a prompt position
(`token_type_ids = 0`), so its label is `-100`. -/
theorem c10_witness :
    (lm_loss_labels 1 (Batch.mk [5, 1, 7] [1, 1, 1] [0, 1, 1])).get? 0 =
      some (if (5 : Int) = 1 ∨ (0 : Int) = 0 then -100 else 5) :=
  (c10_lm_loss_labels_masking 1 (Batch.mk [5, 1, 7] [1, 1, 1] [0, 1, 1]) 0 5 0
    (by decide) (by decide)).1

end LLMCaptioning
